import Mathlib

/-!
Shallow embedding of the digital-twin repository: a retrieval-augmented
question-answering pipeline (vector retrieval, then LLM generation) fronted
by a JSON-RPC 2.0 tool-dispatch endpoint.

The two external network services (the vector-similarity store and the
language-model completion service) are opaque collaborators; they are
modelled as oracle outcomes passed in explicitly.  Functions that perform
outbound calls are instrumented to also return the list of calls they made,
so that claims of the form "the generator is never invoked" are statements
about the returned trace.

Sources embedded:
  - vector.ts   (`getRelevantContext`, `getVectorInfo`)
  - groq.ts     (`generateResponse`, `ragQuery`, `chatWithDigitalTwin`)
  - app/api/mcp/route.ts (`TOOLS`, `handleMCPRequest`, `POST`, `GET`)
-/

/-- Metadata carried by a stored vector (vector.ts `VectorMetadata`). -/
structure VectorMetadata where
  title : String
  type : String
  content : String
  category : String
  tags : List String
deriving DecidableEq, Inhabited

/-- One raw match returned by the vector service (vector.ts `QueryResult`);
`metadata` is optional in the service response.  Scores are carried through
opaquely; no arithmetic is performed on them, so they are modelled as `Int`. -/
structure QueryResult where
  id : String
  score : Int
  metadata : Option VectorMetadata
deriving DecidableEq, Inhabited

/-- One filtered source entry `{title, content, score}` as produced by
`getRelevantContext` and consumed by `ragQuery`. -/
structure SourceEntry where
  title : String
  content : String
  score : Int
deriving DecidableEq, Inhabited

/-- The per-match projection in `getRelevantContext`:
`title: result.metadata?.title || "Information"`,
`content: result.metadata?.content || ""`, `score: result.score`.
The JS `||` default fires when the optional chain is `undefined` or the
string is empty (both falsy). -/
def toSourceEntry (r : QueryResult) : SourceEntry :=
  { title :=
      if (r.metadata.map VectorMetadata.title).getD "" = "" then "Information"
      else (r.metadata.map VectorMetadata.title).getD ""
  , content := (r.metadata.map VectorMetadata.content).getD ""
  , score := r.score }

/-- vector.ts `getRelevantContext`, applied to the service's query results:
`results.filter(r => r.metadata?.content).map(...)`.  The filter keeps a
match iff the optional chain `r.metadata?.content` is truthy, i.e. metadata
is present and its `content` is a non-empty string. -/
def getRelevantContext (results : List QueryResult) : List SourceEntry :=
  (results.filter fun r => (r.metadata.map VectorMetadata.content).getD "" != "").map
    toSourceEntry

/-- Payload of the vector-service status query (vector.ts `getVectorInfo`). -/
structure VectorInfo where
  vectorCount : Nat
  dimension : Nat
deriving DecidableEq, Inhabited

/-- Outcome of one chat-completion request to the language-model service:
either the optional message content `choices[0]?.message?.content`
(absent when the service produced no text), or a thrown failure. -/
inductive LLMOutcome where
  | success (content : Option String)
  | failure (msg : String)
deriving DecidableEq, Inhabited

/-- Sentinel answer returned by `generateResponse` when the completion has
no usable text. -/
def noResponseSentinel : String := "No response generated"

/-- JS `String.prototype.trim()`: the string with leading and trailing
whitespace removed. -/
def jsTrim (s : String) : String :=
  ⟨((s.data.dropWhile Char.isWhitespace).reverse.dropWhile Char.isWhitespace).reverse⟩

/-- groq.ts `generateResponse`, given the service outcome:
`completion.choices[0]?.message?.content?.trim() || "No response generated"`;
a thrown error is re-thrown as `Failed to generate response: <cause>`. -/
def generateResponse (outcome : LLMOutcome) : Except String String :=
  match outcome with
  | .success content =>
      .ok (if (content.map jsTrim).getD "" = "" then noResponseSentinel
           else (content.map jsTrim).getD "")
  | .failure msg => .error ("Failed to generate response: " ++ msg)

/-- The fixed no-information answer of `ragQuery`'s short-circuit branch. -/
def noInfoMessage : String := "I don't have specific information about that topic."

/-- groq.ts `RAGResponse`: `{answer, sources}`. -/
structure RAGResponse where
  answer : String
  sources : List SourceEntry
deriving DecidableEq, Inhabited

/-- JS `Array.prototype.join(sep)`: elements concatenated with `sep`
between consecutive elements. -/
def joinSep (sep : String) : List String → String
  | [] => ""
  | [x] => x
  | x :: y :: xs => x ++ sep ++ joinSep sep (y :: xs)

/-- One context fragment `` `${source.title}: ${source.content}` ``. -/
def fragmentLine (s : SourceEntry) : String := s.title ++ ": " ++ s.content

/-- The context block of `ragQuery`:
`sources.map(s => `${s.title}: ${s.content}`).join("\n\n")`. -/
def buildContext (sources : List SourceEntry) : String :=
  joinSep "\n\n" (sources.map fragmentLine)

/-- The grounding prompt template of `ragQuery`, embedding the context block
and the literal question. -/
def buildPrompt (context question : String) : String :=
  "Based on the following information about yourself, answer the question.\nSpeak in first person as if you are describing your own background.\n\nYour Information:\n"
    ++ context
    ++ "\n\nQuestion: " ++ question
    ++ "\n\nProvide a helpful, professional response:"

/-- groq.ts `ragQuery`, given the outcome of the retrieval call
(`getRelevantContext(question, 3)`) and of the LLM service.  Returns the
result together with the list of prompts sent to the Answer Generator
(empty iff `generateResponse` was never invoked).  The surrounding
try/catch re-throws any failure as `RAG query failed: <cause>`. -/
def ragQuery (question : String)
    (retrieval : Except String (List SourceEntry))
    (llm : LLMOutcome) : Except String RAGResponse × List String :=
  match retrieval with
  | .error msg => (.error ("RAG query failed: " ++ msg), [])
  | .ok sources =>
    if sources.length = 0 then
      (.ok ⟨noInfoMessage, []⟩, [])
    else
      match generateResponse llm with
      | .ok answer =>
          (.ok ⟨answer, sources⟩, [buildPrompt (buildContext sources) question])
      | .error msg =>
          (.error ("RAG query failed: " ++ msg),
           [buildPrompt (buildContext sources) question])

/-- groq.ts `chatWithDigitalTwin`: the answer text of `ragQuery`. -/
def chatWithDigitalTwin (message : String)
    (retrieval : Except String (List SourceEntry))
    (llm : LLMOutcome) : Except String String :=
  match (ragQuery message retrieval llm).1 with
  | .ok r => .ok r.answer
  | .error msg => .error msg

/-- A JSON-RPC request/response id: a string or a number in requests,
`null` in the parse-error response. -/
inductive RpcId where
  | str (s : String)
  | num (n : Int)
  | null
deriving DecidableEq, Inhabited

/-- The `arguments` object of a `tools/call` request, as read by the
handler (`toolArgs?.question`). -/
structure ToolArgs where
  question : Option String
deriving DecidableEq, Inhabited

/-- The `params` object of a request (`params?.name`, `params?.arguments`). -/
structure MCPParams where
  name : Option String
  arguments : Option ToolArgs
deriving DecidableEq, Inhabited

/-- route.ts `MCPRequest` (the `jsonrpc: "2.0"` constant field is omitted;
the handler never reads it). -/
structure MCPRequest where
  id : RpcId
  method : String
  params : Option MCPParams
deriving DecidableEq, Inhabited

/-- A JSON-RPC error object `{code, message}`. -/
structure RpcError where
  code : Int
  message : String
deriving DecidableEq, Inhabited

/-- The JSON-schema-shaped input contract of a tool descriptor. -/
structure InputSchema where
  type : String
  propertyNames : List String
  required : List String
deriving DecidableEq, Inhabited

/-- One entry of the `TOOLS` catalog. -/
structure ToolDescriptor where
  name : String
  description : String
  inputSchema : InputSchema
deriving DecidableEq, Inhabited

/-- route.ts `TOOLS`: the static catalog of the two exposed tools. -/
def TOOLS : List ToolDescriptor :=
  [ { name := "ask_digital_twin"
    , description := "Ask the digital twin a question about their professional background, skills, experience, education, or career goals."
    , inputSchema := ⟨"object", ["question"], ["question"]⟩ }
  , { name := "get_profile_info"
    , description := "Get information about the digital twin's vector database status"
    , inputSchema := ⟨"object", [], []⟩ } ]

/-- One `{title, relevance}` entry of the `metadata.sources` block in the
`ask_digital_twin` result. -/
structure SourceMeta where
  title : String
  relevance : Int
deriving DecidableEq, Inhabited

/-- The `result` member of an RPC response, by dispatch branch. -/
inductive RpcResult where
  | initMeta (protocolVersion serverName serverVersion : String)
  | toolsList (tools : List ToolDescriptor)
  | toolContent (text : String) (sources : Option (List SourceMeta))
deriving DecidableEq, Inhabited

/-- route.ts `MCPResponse` (the constant `jsonrpc: "2.0"` field omitted). -/
structure MCPResponse where
  id : RpcId
  result : Option RpcResult
  error : Option RpcError
deriving DecidableEq, Inhabited

/-- Outcomes of the two outbound collaborator calls available to the
handler: `ragQuery(question)` per question, and `getVectorInfo()`.
`.error` models a thrown exception carrying its message. -/
structure Effects where
  rag : String → Except String RAGResponse
  vectorInfo : Except String VectorInfo

/-- Result of `handleMCPRequest` plus its outbound-call trace: the
questions passed to `ragQuery` and the number of `getVectorInfo` calls. -/
structure HandleTrace where
  response : MCPResponse
  ragCalls : List String
  infoCalls : Nat
deriving Inhabited

/-- `params?.name as string` of a `tools/call` request. -/
def toolNameOf (req : MCPRequest) : Option String :=
  req.params.bind MCPParams.name

/-- `toolArgs?.question as string` followed by the JS falsy test: the
extracted question string, `""` when the field is absent. -/
def questionOf (req : MCPRequest) : String :=
  ((req.params.bind MCPParams.arguments).bind ToolArgs.question).getD ""

/-- Rendering of the possibly-undefined tool name inside the
`Unknown tool:` message (JS interpolates `undefined`). -/
def toolNameText (n : Option String) : String := n.getD "undefined"

/-- The formatted text block of the `get_profile_info` result. -/
def profileText (info : VectorInfo) : String :=
  "Digital Twin Profile Status:\n- Vector Count: " ++ toString info.vectorCount
    ++ "\n- Dimension: " ++ toString info.dimension

/-- route.ts `handleMCPRequest`: dispatch on `method`, then on the tool
name for `tools/call`; the surrounding try/catch turns any exception thrown
by an outbound call into a `-32603` error carrying the failure's message. -/
def handleMCPRequest (env : Effects) (req : MCPRequest) : HandleTrace :=
  if req.method = "initialize" then
    ⟨⟨req.id, some (.initMeta "2024-11-05" "digital-twin-mcp" "1.0.0"), none⟩, [], 0⟩
  else if req.method = "tools/list" then
    ⟨⟨req.id, some (.toolsList TOOLS), none⟩, [], 0⟩
  else if req.method = "tools/call" then
    if toolNameOf req = some "ask_digital_twin" then
      if questionOf req = "" then
        ⟨⟨req.id, none, some ⟨-32602, "Missing required parameter: question"⟩⟩, [], 0⟩
      else
        match env.rag (questionOf req) with
        | .ok response =>
            ⟨⟨req.id,
              some (.toolContent response.answer
                (some (response.sources.map fun s => ⟨s.title, s.score⟩))),
              none⟩, [questionOf req], 0⟩
        | .error msg =>
            ⟨⟨req.id, none, some ⟨-32603, msg⟩⟩, [questionOf req], 0⟩
    else if toolNameOf req = some "get_profile_info" then
      match env.vectorInfo with
      | .ok info =>
          ⟨⟨req.id, some (.toolContent (profileText info) none), none⟩, [], 1⟩
      | .error msg =>
          ⟨⟨req.id, none, some ⟨-32603, msg⟩⟩, [], 1⟩
    else
      ⟨⟨req.id, none,
        some ⟨-32601, "Unknown tool: " ++ toolNameText (toolNameOf req)⟩⟩, [], 0⟩
  else
    ⟨⟨req.id, none, some ⟨-32601, "Method not found: " ++ req.method⟩⟩, [], 0⟩

/-- Result of the `POST` transport handler: HTTP status, JSON body, and the
outbound-call trace of dispatch. -/
structure PostResult where
  status : Nat
  body : MCPResponse
  ragCalls : List String
  infoCalls : Nat
deriving Inhabited

/-- route.ts `POST`: the body either decodes as JSON (`some req`) or fails
to decode (`none`); on decode failure respond 400 with the `-32700` parse
error and `id: null`, otherwise 200 with the dispatch response. -/
def POST (env : Effects) (body : Option MCPRequest) : PostResult :=
  match body with
  | none => ⟨400, ⟨.null, none, some ⟨-32700, "Parse error"⟩⟩, [], 0⟩
  | some req =>
      let t := handleMCPRequest env req
      ⟨200, t.response, t.ragCalls, t.infoCalls⟩

/-- The liveness payload `{status, server, version, tools}` of `GET`. -/
structure HealthPayload where
  status : String
  server : String
  version : String
  tools : List String
deriving DecidableEq, Inhabited

/-- route.ts `GET`: the parameterless health probe. -/
def GET : HealthPayload :=
  ⟨"ok", "digital-twin-mcp", "1.0.0", TOOLS.map ToolDescriptor.name⟩

/-! Shared concrete inputs used by witness theorems. -/

/-- An environment in which both collaborators succeed. -/
def demoEnv : Effects :=
  { rag := fun _ => .ok ⟨"demo answer", [⟨"Skills", "Go, TypeScript", 91⟩]⟩
  , vectorInfo := .ok ⟨7, 1024⟩ }

/-- An environment in which both collaborators throw. -/
def failEnv : Effects :=
  { rag := fun _ => .error "boom"
  , vectorInfo := .error "boom" }

/-- A `tools/call` request for `ask_digital_twin` whose arguments lack
`question`. -/
def reqMissingQ : MCPRequest :=
  ⟨.num 1, "tools/call", some ⟨some "ask_digital_twin", some ⟨none⟩⟩⟩

/-- A `tools/call` request for `ask_digital_twin` whose `question` is the
empty string. -/
def reqEmptyQ : MCPRequest :=
  ⟨.num 2, "tools/call", some ⟨some "ask_digital_twin", some ⟨some ""⟩⟩⟩

/-- A well-formed `tools/call` request for `ask_digital_twin`. -/
def reqAsk : MCPRequest :=
  ⟨.str "a", "tools/call", some ⟨some "ask_digital_twin", some ⟨some "hi"⟩⟩⟩

/-! Theorems settling the claims. -/

/-- C1: if the Context Retriever returns an empty match sequence, `ragQuery`
returns the fixed no-information answer with empty sources, and the Answer
Generator is never invoked (the prompt trace is empty), whatever the LLM
oracle would have answered. -/
theorem ragQuery_empty_retrieval_short_circuits (q : String) (llm : LLMOutcome) :
    ragQuery q (.ok []) llm = (.ok ⟨noInfoMessage, []⟩, []) := rfl

/-- C9: the parameterless `GET` liveness probe reports status, server
identity, version, and the names of the two available tools. -/
theorem GET_reports_identity_and_tools :
    GET = ⟨"ok", "digital-twin-mcp", "1.0.0", ["ask_digital_twin", "get_profile_info"]⟩ := rfl

/-- C4: a body that fails to decode yields HTTP 400 with error code
`-32700` and `id: null`, bypassing dispatch (no outbound calls); every body
that decodes is answered with HTTP 200 and the dispatch response, whether
that response carries a result or an RPC-level error. -/
theorem POST_parse_error_and_status (env : Effects) :
    POST env none = ⟨400, ⟨.null, none, some ⟨-32700, "Parse error"⟩⟩, [], 0⟩
    ∧ ∀ req : MCPRequest,
        (POST env (some req)).status = 200
        ∧ (POST env (some req)).body = (handleMCPRequest env req).response :=
  ⟨rfl, fun _ => ⟨rfl, rfl⟩⟩

/-- C8: `generateResponse` returns the completion text trimmed of
surrounding whitespace, and when the service returns no text it returns the
fixed sentinel as a normal `.ok` value, not a failure. -/
theorem generateResponse_trims_or_sentinel :
    (∀ t : String, jsTrim t ≠ "" → generateResponse (.success (some t)) = .ok (jsTrim t))
    ∧ generateResponse (.success none) = .ok noResponseSentinel := by
  refine ⟨fun t ht => ?_, rfl⟩
  simp [generateResponse, ht]

/-- C8 witness: the theorem applied at the concrete completion text
`" hi "`. -/
theorem generateResponse_trims_witness :
    generateResponse (.success (some " hi ")) = .ok (jsTrim " hi ") :=
  generateResponse_trims_or_sentinel.1 " hi " (by decide)

/-- C3: a `tools/call` for `ask_digital_twin` whose arguments lack the
`question` field is rejected with error code `-32602`, and neither
`ragQuery` nor `getVectorInfo` is invoked. -/
theorem missing_question_rejected (env : Effects) (req : MCPRequest)
    (hm : req.method = "tools/call")
    (hn : toolNameOf req = some "ask_digital_twin")
    (hq : (req.params.bind MCPParams.arguments).bind ToolArgs.question = none) :
    handleMCPRequest env req =
      ⟨⟨req.id, none, some ⟨-32602, "Missing required parameter: question"⟩⟩, [], 0⟩ := by
  have hq' : questionOf req = "" := by simp [questionOf, hq]
  simp [handleMCPRequest, hm, hn, hq']

/-- C3 witness: the theorem applied to a concrete request with no
`question` argument. -/
theorem missing_question_rejected_witness :
    handleMCPRequest demoEnv reqMissingQ =
      ⟨⟨.num 1, none, some ⟨-32602, "Missing required parameter: question"⟩⟩, [], 0⟩ :=
  missing_question_rejected demoEnv reqMissingQ rfl rfl rfl

/-- C10: a `tools/call` for `ask_digital_twin` whose `question` argument is
present but empty (the only falsy string value) is rejected exactly like a
missing one: error code `-32602` and no outbound calls. -/
theorem empty_question_rejected (env : Effects) (req : MCPRequest)
    (hm : req.method = "tools/call")
    (hn : toolNameOf req = some "ask_digital_twin")
    (hq : (req.params.bind MCPParams.arguments).bind ToolArgs.question = some "") :
    handleMCPRequest env req =
      ⟨⟨req.id, none, some ⟨-32602, "Missing required parameter: question"⟩⟩, [], 0⟩ := by
  have hq' : questionOf req = "" := by simp [questionOf, hq]
  simp [handleMCPRequest, hm, hn, hq']

/-- C10 witness: the theorem applied to a concrete request with
`question: ""`. -/
theorem empty_question_rejected_witness :
    handleMCPRequest demoEnv reqEmptyQ =
      ⟨⟨.num 2, none, some ⟨-32602, "Missing required parameter: question"⟩⟩, [], 0⟩ :=
  empty_question_rejected demoEnv reqEmptyQ rfl rfl rfl

/-- C5: an exception thrown by a collaborator during dispatch — `ragQuery`
on the ask branch, `getVectorInfo` on the profile branch — is caught and
translated into error code `-32603` carrying the failure's message, with
the request's id intact; `handleMCPRequest` is total, so no exception ever
escapes it. -/
theorem dispatch_exception_translated (env : Effects) (req : MCPRequest) (msg : String) :
    (req.method = "tools/call" → toolNameOf req = some "ask_digital_twin" →
      questionOf req ≠ "" → env.rag (questionOf req) = .error msg →
      handleMCPRequest env req =
        ⟨⟨req.id, none, some ⟨-32603, msg⟩⟩, [questionOf req], 0⟩)
    ∧ (req.method = "tools/call" → toolNameOf req = some "get_profile_info" →
      env.vectorInfo = .error msg →
      handleMCPRequest env req = ⟨⟨req.id, none, some ⟨-32603, msg⟩⟩, [], 1⟩) := by
  constructor
  · intro hm hn hq hr
    simp [handleMCPRequest, hm, hn, hq, hr]
  · intro hm hn hv
    simp [handleMCPRequest, hm, hn, hv]

/-- C5 witness: the theorem applied to a throwing environment and a
concrete ask request. -/
theorem dispatch_exception_translated_witness :
    handleMCPRequest failEnv reqAsk =
      ⟨⟨.str "a", none, some ⟨-32603, "boom"⟩⟩, ["hi"], 0⟩ :=
  (dispatch_exception_translated failEnv reqAsk "boom").1 rfl rfl (by decide) rfl

/-- C2: every handled request's response carries the request's id unchanged
and contains exactly one of `result` and `error`, across all methods, tool
names, and collaborator outcomes. -/
theorem response_echoes_id_and_is_exclusive (env : Effects) (req : MCPRequest) :
    (handleMCPRequest env req).response.id = req.id
    ∧ (((handleMCPRequest env req).response.result.isSome = true
          ∧ (handleMCPRequest env req).response.error = none)
       ∨ ((handleMCPRequest env req).response.result = none
          ∧ (handleMCPRequest env req).response.error.isSome = true)) := by
  unfold handleMCPRequest
  split_ifs <;>
    first
    | simp
    | (cases env.rag (questionOf req) <;> simp)
    | (cases env.vectorInfo <;> simp)

/-! Substring infrastructure for the prompt-embedding claim. -/

/-- `u` occurs contiguously inside `v`. -/
def substrOf (u v : String) : Prop :=
  ∃ a b : List Char, v.data = a ++ u.data ++ b

theorem substrOf_refl (u : String) : substrOf u u :=
  ⟨[], [], by simp⟩

theorem substrOf_append_left (w : String) {u v : String} (h : substrOf u v) :
    substrOf u (w ++ v) := by
  rcases h with ⟨a, b, hab⟩
  exact ⟨w.data ++ a, b, by simp [String.data_append, hab]⟩

theorem substrOf_append_right (w : String) {u v : String} (h : substrOf u v) :
    substrOf u (v ++ w) := by
  rcases h with ⟨a, b, hab⟩
  exact ⟨a, b ++ w.data, by simp [String.data_append, hab]⟩

/-- Every element of a joined list occurs contiguously in the join. -/
theorem substrOf_joinSep (sep : String) :
    ∀ (l : List String) (x : String), x ∈ l → substrOf x (joinSep sep l)
  | [], x, hx => by cases hx
  | [y], x, hx => by
      have hxy : x = y := by simpa using hx
      subst hxy
      exact substrOf_refl x
  | y :: z :: zs, x, hx => by
      rcases List.mem_cons.mp hx with rfl | hx'
      · exact ⟨[], (sep ++ joinSep sep (z :: zs)).data,
          by simp [joinSep, String.data_append]⟩
      · exact substrOf_append_left (y ++ sep) (substrOf_joinSep sep (z :: zs) x hx')

/-- The spec's filtering condition: the match carries metadata whose
fragment content is present and non-empty. -/
def hasUsableContent (r : QueryResult) : Bool :=
  match r.metadata with
  | none => false
  | some m => m.content != ""

/-- Vector-service results used by witness theorems: one usable match, one
with empty content, one with no metadata. -/
def demoResults : List QueryResult :=
  [ ⟨"1", 91, some ⟨"Skills", "profile", "Go, TypeScript", "tech", []⟩⟩
  , ⟨"2", 80, some ⟨"Empty", "profile", "", "tech", []⟩⟩
  , ⟨"3", 70, none⟩ ]

/-- Non-empty source list used by witness theorems. -/
def demoSources : List SourceEntry :=
  [⟨"Skills", "Go, TypeScript", 91⟩, ⟨"Edu", "BSc", 80⟩]

/-- C7: `getRelevantContext` returns exactly the matches whose fragment
content is present and non-empty (every returned entry has non-empty
content), and the returned sequence is an order-preserving selection of the
service's sequence — no local re-sorting. -/
theorem getRelevantContext_filters_and_preserves_order (rs : List QueryResult) :
    getRelevantContext rs = (rs.filter hasUsableContent).map toSourceEntry
    ∧ (∀ e ∈ getRelevantContext rs, e.content ≠ "")
    ∧ List.Sublist (getRelevantContext rs) (rs.map toSourceEntry) := by
  have hpred : ∀ r ∈ rs,
      ((r.metadata.map VectorMetadata.content).getD "" != "") = hasUsableContent r := by
    intro r _
    cases hmd : r.metadata <;> simp [hasUsableContent, hmd]
  refine ⟨?_, ?_, ?_⟩
  · unfold getRelevantContext
    rw [List.filter_congr hpred]
  · intro e he
    unfold getRelevantContext at he
    rcases List.mem_map.mp he with ⟨r, hr, rfl⟩
    have hc := (List.mem_filter.mp hr).2
    cases hmd : r.metadata with
    | none => rw [hmd] at hc; simp at hc
    | some m =>
      rw [hmd] at hc
      simp at hc
      simp [toSourceEntry, hmd, hc]
  · unfold getRelevantContext
    exact (List.filter_sublist rs).map toSourceEntry

/-- C7 witness: the theorem applied to a concrete service response in which
only the first match carries usable content. -/
theorem getRelevantContext_filters_witness :
    getRelevantContext demoResults = [⟨"Skills", "Go, TypeScript", 91⟩]
    ∧ (⟨"Skills", "Go, TypeScript", 91⟩ : SourceEntry).content ≠ "" :=
  ⟨by decide,
   (getRelevantContext_filters_and_preserves_order demoResults).2.1 _ (by decide)⟩

/-- C6: with at least one retrieved match, `ragQuery` sends the Answer
Generator exactly one prompt, built from the context block and the literal
question; the context block contains every fragment's `"<title>: <content>"`
line in retrieval order (the block is the in-order join of those lines, and
each line occurs contiguously in it), and the prompt contains the context
block and the question. -/
theorem ragQuery_prompt_embeds_context (q : String) (srcs : List SourceEntry)
    (llm : LLMOutcome) (h : srcs ≠ []) :
    (ragQuery q (.ok srcs) llm).2 = [buildPrompt (buildContext srcs) q]
    ∧ (∀ s ∈ srcs, substrOf (fragmentLine s) (buildContext srcs))
    ∧ substrOf (buildContext srcs) (buildPrompt (buildContext srcs) q)
    ∧ substrOf q (buildPrompt (buildContext srcs) q) := by
  have hlen : ¬ srcs.length = 0 := by simpa using h
  refine ⟨?_, ?_, ?_, ?_⟩
  · unfold ragQuery
    cases generateResponse llm <;> simp [hlen]
  · intro s hs
    exact substrOf_joinSep "\n\n" (srcs.map fragmentLine) (fragmentLine s)
      (List.mem_map_of_mem fragmentLine hs)
  · unfold buildPrompt
    exact substrOf_append_right _
      (substrOf_append_right _
        (substrOf_append_right _
          (substrOf_append_left _ (substrOf_refl (buildContext srcs)))))
  · unfold buildPrompt
    exact substrOf_append_right _
      (substrOf_append_left _ (substrOf_refl q))

/-- C6 witness: the theorem applied to a concrete two-fragment retrieval. -/
theorem ragQuery_prompt_embeds_witness :
    demoSources ≠ []
    ∧ (ragQuery "What?" (.ok demoSources) (.success (some "fine"))).2
        = [buildPrompt (buildContext demoSources) "What?"] :=
  ⟨by decide,
   (ragQuery_prompt_embeds_context "What?" demoSources (.success (some "fine"))
      (by decide)).1⟩
